import Mathlib

/-!
Shallow embedding of the MyRentalHost Concierge backend (src/app.py and
src/whatsapp_integration.py), covering the pieces the claims speak about:
the file-based session store (chat histories and guest-apartment links),
the apartment knowledge loader, the chat endpoint, the upload and reset
endpoints, the WhatsApp webhook verification handshake, and the phone
registry of the WhatsApp integration module.

Python strings are modelled as Lean `String` where only equality matters,
and as `List Char` where suffix or substring structure matters (filenames,
extracted document text). Timestamps (`datetime.now().isoformat()`) are
modelled as an abstract clock value `now : Nat` passed in by the caller.
The external collaborators (PDF and Word text extractors, the language
model responder, werkzeug's secure_filename) are parameters: the claims
quantify over their behaviour.
-/

/-- A chat history entry as written by app.py: a dict with keys
role ("user" or "assistant"), content, and timestamp. -/
structure ChatMessage where
  role : String
  content : String
  timestamp : Nat
deriving DecidableEq, Repr

/-- The guest-apartment association written by save_guest_info
(chat_history/{guest_id}_info.json). -/
structure GuestInfo where
  guest_id : String
  apartment_id : String
  created_at : Nat
deriving DecidableEq, Repr

/-- One file stored in an apartment directory: its filename and its raw
content (the bytes the documents extractors read). -/
structure DirEntry where
  filename : List Char
  content : List Char
deriving DecidableEq, Repr

/-- The file-system state the endpoints read and write:
chat_history/{g}.json files, chat_history/{g}_info.json files, and the
apartments_data/{a}/ directories (absent directory = none, present
directory = its listing). -/
structure FS where
  histories : String → Option (List ChatMessage)
  links : String → Option GuestInfo
  apartmentDirs : String → Option (List DirEntry)

/-- Point update of a string-keyed map. -/
def updateFun {α : Type} (f : String → Option α) (k : String) (v : Option α) :
    String → Option α :=
  fun x => if x = k then v else f x

/-- get_chat_history: returns the parsed history file, or [] when the file
does not exist. -/
def get_chat_history (fs : FS) (guest_id : String) : List ChatMessage :=
  (fs.histories guest_id).getD []

/-- save_chat_history: full overwrite of the guest history file. -/
def save_chat_history (fs : FS) (guest_id : String) (history : List ChatMessage) : FS :=
  { fs with histories := updateFun fs.histories guest_id (some history) }

/-- save_guest_info: overwrites the guest-apartment link file, stamped with
the current time. -/
def save_guest_info (fs : FS) (guest_id apartment_id : String) (now : Nat) : FS :=
  { fs with links := updateFun fs.links guest_id (some ⟨guest_id, apartment_id, now⟩) }

/-- load_guest_info: the link file content, or none when absent. -/
def load_guest_info (fs : FS) (guest_id : String) : Option GuestInfo :=
  fs.links guest_id

/-- ALLOWED_EXTENSIONS = {pdf, docx, doc}. -/
def ALLOWED_EXTENSIONS : List (List Char) :=
  ["pdf".toList, "docx".toList, "doc".toList]

/-- The characters after the last dot of a filename:
filename.rsplit(".", 1)[1] when a dot is present. -/
def afterLastDot (s : List Char) : List Char :=
  (s.reverse.takeWhile (fun c => c ≠ '.')).reverse

/-- allowed_file: a dot is present and the lower-cased final extension is in
ALLOWED_EXTENSIONS. -/
def allowed_file (filename : List Char) : Bool :=
  filename.contains '.' &&
    ALLOWED_EXTENSIONS.contains ((afterLastDot filename).map Char.toLower)

/-- filename.endswith(".pdf"). -/
def isPdfName (f : List Char) : Bool := ".pdf".toList.isSuffixOf f

/-- filename.endswith(".docx") or filename.endswith(".doc"). -/
def isDocxName (f : List Char) : Bool :=
  ".docx".toList.isSuffixOf f || ".doc".toList.isSuffixOf f

/-- The section appended to full_text for one extracted document:
"\n\n=== {filename} ===\n{text}". -/
def sectionFor (filename text : List Char) : List Char :=
  "\n\n=== ".toList ++ filename ++ " ===\n".toList ++ text

/-- The loop body of load_apartment_info over the directory listing: pdf
files go through the PDF extractor, docx/doc files through the Word
extractor, every other file is skipped; each processed document is appended
to the documents list and its section to full_text, in listing order. -/
def scanDocs (extractPdf extractDocx : List Char → List Char) :
    List DirEntry → List (List Char × List Char) × List Char
  | [] => ([], [])
  | d :: rest =>
    let r := scanDocs extractPdf extractDocx rest
    if isPdfName d.filename then
      ((d.filename, extractPdf d.content) :: r.1,
        sectionFor d.filename (extractPdf d.content) ++ r.2)
    else if isDocxName d.filename then
      ((d.filename, extractDocx d.content) :: r.1,
        sectionFor d.filename (extractDocx d.content) ++ r.2)
    else r

/-- The apartment_info dict built by load_apartment_info. -/
structure ApartmentInfo where
  apartment_id : String
  documents : List (List Char × List Char)
  full_text : List Char
deriving DecidableEq, Repr

/-- load_apartment_info: none when the apartment directory does not exist,
otherwise the aggregated documents and concatenated full text (possibly
empty but still a present value). -/
def load_apartment_info (extractPdf extractDocx : List Char → List Char)
    (fs : FS) (apartment_id : String) : Option ApartmentInfo :=
  match fs.apartmentDirs apartment_id with
  | none => none
  | some listing =>
    let r := scanDocs extractPdf extractDocx listing
    some ⟨apartment_id, r.1, r.2⟩

/-- get_concierge_system_prompt: the fixed Spanish instruction text with the
apartment id and the concatenated knowledge text spliced in. -/
def get_concierge_system_prompt (info : ApartmentInfo) : List Char :=
  ("Eres el conciergue virtual de MyRentalHost para el apartamento ").toList
    ++ info.apartment_id.toList
    ++ (" en Barcelona.\n\nTu función es ayudar a los huéspedes con cualquier duda o necesidad durante su estancia. Debes ser:\n- Amable, profesional y servicial\n- Claro y conciso en tus respuestas\n- Proactivo en ofrecer información relevante\n- Capaz de manejar emergencias con calma\n\nINFORMACIÓN DEL APARTAMENTO:\n").toList
    ++ info.full_text
    ++ ("\n\nINSTRUCCIONES IMPORTANTES:\n1. Responde SIEMPRE en español de forma natural y conversacional\n2. Si el huésped pregunta algo que está en la documentación, proporciona la respuesta exacta\n3. Para recomendaciones de Barcelona, usa tu conocimiento general de la ciudad\n4. Si hay una emergencia, proporciona los contactos de emergencia del apartamento\n5. Si no tienes información específica, sé honesto y ofrece contactar con el equipo de MyRentalHost\n6. Mantén un tono cálido pero profesional, como un conciergue de hotel de lujo\n7. Personaliza tus respuestas según el contexto de la conversación\n\nRecuerda: Tu objetivo es hacer que la estancia del huésped sea lo más cómoda y agradable posible.").toList

/-- Python truthiness of an optional request field: data.get(k) is falsy
when the key is absent or the value is the empty string. -/
def isBlank : Option String → Bool
  | none => true
  | some s => s == ""

/-- The observable outcomes of the /chat endpoint: the two 400 responses,
the 404 response, the 500 response from the except branch, and the success
JSON {response, apartment_id, guest_id}. -/
inductive ChatOutcome where
  | missingFields
  | missingApartment
  | unknownApartment (apartment_id : String)
  | processingError
  | success (reply apartment_id guest_id : String)
deriving DecidableEq, Repr

/-- The api_messages list comprehension: the (role, content) pairs of the
history entries whose role is user or assistant. -/
def apiMessages (hist : List ChatMessage) : List (String × String) :=
  (hist.filter (fun msg => msg.role == "user" || msg.role == "assistant")).map
    (fun msg => (msg.role, msg.content))

/-- The try-block of the /chat endpoint, after the apartment info was
loaded: append the guest turn to the history read from disk, send the
role-filtered (role, content) pairs to the responder, and on success
append the assistant turn and persist; the except-branch returns the
generic 500 without persisting anything. -/
def chatRespond (respond : List Char → List (String × String) → Option String)
    (fs1 : FS) (now : Nat) (g a m : String) (info : ApartmentInfo) :
    ChatOutcome × FS :=
  match respond (get_concierge_system_prompt info)
      (apiMessages (get_chat_history fs1 g ++ [⟨"user", m, now⟩])) with
  | none => (.processingError, fs1)
  | some reply =>
    (.success reply a g,
      save_chat_history fs1 g
        (get_chat_history fs1 g ++ [⟨"user", m, now⟩] ++ [⟨"assistant", reply, now⟩]))

/-- The /chat endpoint from the knowledge-loading step on: 404 when the
apartment directory does not exist, else the responder round trip. -/
def chatWithApartment (extractPdf extractDocx : List Char → List Char)
    (respond : List Char → List (String × String) → Option String)
    (fs1 : FS) (now : Nat) (g a m : String) : ChatOutcome × FS :=
  match load_apartment_info extractPdf extractDocx fs1 a with
  | none => (.unknownApartment a, fs1)
  | some info => chatRespond respond fs1 now g a m info

/-- The /chat endpoint. `respond` is the external language-model call
(anthropic client), taking the system prompt and the (role, content) pairs
and returning none when it raises. Requires guest_id and message; resolves
the apartment id from the supplied field (persisting the link) or from the
stored link. Returns the outcome and the resulting file-system state. -/
def chat (extractPdf extractDocx : List Char → List Char)
    (respond : List Char → List (String × String) → Option String)
    (fs : FS) (now : Nat)
    (guest_id apartment_id message : Option String) : ChatOutcome × FS :=
  if isBlank guest_id || isBlank message then (.missingFields, fs)
  else
    let g := guest_id.getD ""
    let m := message.getD ""
    if isBlank apartment_id then
      match load_guest_info fs g with
      | some info =>
        chatWithApartment extractPdf extractDocx respond fs now g info.apartment_id m
      | none => (.missingApartment, fs)
    else
      let a := apartment_id.getD ""
      chatWithApartment extractPdf extractDocx respond
        (save_guest_info fs g a now) now g a m

/-- The GET /chat/{guest_id}/history response: guest id, the linked
apartment id or null, and the history. -/
def get_history (fs : FS) (guest_id : String) :
    String × Option String × List ChatMessage :=
  (guest_id, (load_guest_info fs guest_id).map (fun i => i.apartment_id),
    get_chat_history fs guest_id)

/-- POST /chat/{guest_id}/reset: removes the history file when it exists;
link files are not touched. -/
def reset_chat (fs : FS) (guest_id : String) : FS :=
  { fs with histories := updateFun fs.histories guest_id none }

/-- An uploaded multipart file: its client-supplied filename and content. -/
structure UploadedFile where
  filename : List Char
  content : List Char
deriving DecidableEq, Repr

/-- The observable outcomes of POST /apartments/{id}/upload: the three 400
responses and the success JSON carrying the stored filename. -/
inductive UploadOutcome where
  | noFilePart
  | emptyFilename
  | disallowedType
  | uploaded (filename : List Char)
deriving DecidableEq, Repr

/-- upload_document: validates presence, non-empty filename and allowed
extension before creating the apartment directory (lazily) and saving the
file under its secured name, overwriting any file of that name. `secure`
is werkzeug's secure_filename. -/
def upload_document (secure : List Char → List Char) (fs : FS)
    (apartment_id : String) (file : Option UploadedFile) : UploadOutcome × FS :=
  match file with
  | none => (.noFilePart, fs)
  | some f =>
    if f.filename.isEmpty then (.emptyFilename, fs)
    else if !allowed_file f.filename then (.disallowedType, fs)
    else
      let fname := secure f.filename
      let old := (fs.apartmentDirs apartment_id).getD []
      let listing := old.filter (fun d => d.filename ≠ fname) ++ [⟨fname, f.content⟩]
      (.uploaded fname,
        { fs with apartmentDirs := fun a =>
            if a = apartment_id then some listing else fs.apartmentDirs a })

/-- The outcome of the GET webhook verification: echo the challenge, or the
("Forbidden", 403) response. -/
inductive VerifyResult where
  | challengeEcho (challenge : Option String)
  | forbidden
deriving DecidableEq, Repr

/-- The GET branch of /whatsapp/webhook: echoes the challenge exactly when
hub.mode is "subscribe" and hub.verify_token equals the configured
VERIFY_TOKEN; any other combination gets 403. -/
def whatsapp_webhook_verify (verify_token : String)
    (mode token challenge : Option String) : VerifyResult :=
  if mode == some "subscribe" && token == some verify_token then
    .challengeEcho challenge
  else .forbidden

/-- One record of guest_phone_registry.json: apartment id, optional guest
name, registration timestamp. -/
structure PhoneRecord where
  apartment_id : String
  guest_name : Option String
  registered_at : Nat
deriving DecidableEq, Repr

/-- The names bound at module scope in src/whatsapp_integration.py: the
module imports requests, os, and Dict and Optional from typing, and
nothing else at top level. -/
def whatsappIntegrationImports : List String :=
  ["requests", "os", "Dict", "Optional"]

/-- The runtime error relevant here: evaluating an unbound name raises
NameError. -/
inductive PyRuntimeError where
  | nameError (missing : String)
deriving DecidableEq, Repr

/-- GuestPhoneRegistry.register_guest: builds the record dict whose
registered_at field evaluates datetime.now(); the name datetime resolves
only if the module imported it, otherwise the call raises NameError before
the registry is updated. On success the record is stored under the phone
number and the registry persisted. -/
def register_guest (registry : String → Option PhoneRecord)
    (phone_number apartment_id : String) (guest_name : Option String)
    (now : Nat) : Except PyRuntimeError (String → Option PhoneRecord) :=
  if whatsappIntegrationImports.contains "datetime" then
    .ok (fun p => if p = phone_number then
          some ⟨apartment_id, guest_name, now⟩
        else registry p)
  else
    .error (.nameError "datetime")

/-- GuestPhoneRegistry.get_apartment_id: the apartment id of the record
stored under the phone number, or none. -/
def get_apartment_id (registry : String → Option PhoneRecord)
    (phone_number : String) : Option String :=
  (registry phone_number).map (fun r => r.apartment_id)

/-- A pattern occurs inside a character sequence. -/
def occursIn (pat s : List Char) : Prop :=
  ∃ pre post, s = pre ++ pat ++ post

/-- The filename marker of a document section: "=== {filename} ===". -/
def markerOf (filename : List Char) : List Char :=
  "=== ".toList ++ filename ++ " ===".toList

/-! ### Helper lemmas -/

/-- The empty file-system state. -/
def emptyFS : FS :=
  { histories := fun _ => none
    links := fun _ => none
    apartmentDirs := fun _ => none }

theorem isBlank_some_false {s : String} (h : s ≠ "") : isBlank (some s) = false := by
  simp [isBlank, h]

theorem save_guest_info_histories (fs : FS) (g a : String) (now : Nat) :
    (save_guest_info fs g a now).histories = fs.histories := rfl

theorem save_guest_info_dirs (fs : FS) (g a : String) (now : Nat) :
    (save_guest_info fs g a now).apartmentDirs = fs.apartmentDirs := rfl

theorem get_chat_history_save (fs : FS) (g : String) (h : List ChatMessage) :
    get_chat_history (save_chat_history fs g h) g = h := by
  simp [get_chat_history, save_chat_history, updateFun]

theorem chatRespond_links (respond : List Char → List (String × String) → Option String)
    (fs1 : FS) (now : Nat) (g a m : String) (info : ApartmentInfo) :
    (chatRespond respond fs1 now g a m info).2.links = fs1.links := by
  unfold chatRespond
  cases respond (get_concierge_system_prompt info)
      (apiMessages (get_chat_history fs1 g ++ [⟨"user", m, now⟩])) with
  | none => rfl
  | some reply => rfl

theorem chatWithApartment_links (extractPdf extractDocx : List Char → List Char)
    (respond : List Char → List (String × String) → Option String)
    (fs1 : FS) (now : Nat) (g a m : String) :
    (chatWithApartment extractPdf extractDocx respond fs1 now g a m).2.links
      = fs1.links := by
  unfold chatWithApartment
  cases load_apartment_info extractPdf extractDocx fs1 a with
  | none => rfl
  | some info => exact chatRespond_links respond fs1 now g a m info

theorem chatRespond_fail (respond : List Char → List (String × String) → Option String)
    (fs1 : FS) (now : Nat) (g a m : String) (info : ApartmentInfo)
    (hfail : ∀ p msgs, respond p msgs = none) :
    chatRespond respond fs1 now g a m info = (.processingError, fs1) := by
  unfold chatRespond
  rw [hfail]

theorem chatRespond_not_unknown
    (respond : List Char → List (String × String) → Option String)
    (fs1 : FS) (now : Nat) (g a m x : String) (info : ApartmentInfo) :
    (chatRespond respond fs1 now g a m info).1 ≠ .unknownApartment x := by
  unfold chatRespond
  cases respond (get_concierge_system_prompt info)
      (apiMessages (get_chat_history fs1 g ++ [⟨"user", m, now⟩])) with
  | none => simp
  | some reply => simp

theorem chatRespond_success
    (respond : List Char → List (String × String) → Option String)
    (fs1 : FS) (now : Nat) (g a m : String) (info : ApartmentInfo)
    (reply a2 g2 : String)
    (h : (chatRespond respond fs1 now g a m info).1 = .success reply a2 g2) :
    get_chat_history (chatRespond respond fs1 now g a m info).2 g
      = get_chat_history fs1 g ++ [⟨"user", m, now⟩, ⟨"assistant", reply, now⟩] := by
  unfold chatRespond at h ⊢
  cases hresp : respond (get_concierge_system_prompt info)
      (apiMessages (get_chat_history fs1 g ++ [⟨"user", m, now⟩])) with
  | none => rw [hresp] at h; simp at h
  | some r =>
    rw [hresp] at h
    dsimp only at h ⊢
    simp only [ChatOutcome.success.injEq] at h
    obtain ⟨hr, _, _⟩ := h
    subst hr
    rw [get_chat_history_save]
    simp

theorem chatWithApartment_success (extractPdf extractDocx : List Char → List Char)
    (respond : List Char → List (String × String) → Option String)
    (fs1 : FS) (now : Nat) (g a m reply a2 g2 : String)
    (h : (chatWithApartment extractPdf extractDocx respond fs1 now g a m).1
        = .success reply a2 g2) :
    get_chat_history (chatWithApartment extractPdf extractDocx respond fs1 now g a m).2 g
      = get_chat_history fs1 g ++ [⟨"user", m, now⟩, ⟨"assistant", reply, now⟩] := by
  unfold chatWithApartment at h ⊢
  cases hload : load_apartment_info extractPdf extractDocx fs1 a with
  | none => rw [hload] at h; simp at h
  | some info =>
    rw [hload] at h
    dsimp only at h ⊢
    exact chatRespond_success respond fs1 now g a m info reply a2 g2 h

theorem occursIn_append_left {pat s : List Char} (x : List Char)
    (h : occursIn pat s) : occursIn pat (x ++ s) := by
  obtain ⟨pre, post, hp⟩ := h
  exact ⟨x ++ pre, post, by rw [hp]; simp⟩

theorem occursIn_sectionFor (f t rest : List Char) :
    occursIn (markerOf f) (sectionFor f t ++ rest) := by
  have h1 : ("\n\n=== ".toList : List Char) = "\n\n".toList ++ "=== ".toList := by decide
  have h2 : (" ===\n".toList : List Char) = " ===".toList ++ "\n".toList := by decide
  refine ⟨"\n\n".toList, "\n".toList ++ (t ++ rest), ?_⟩
  simp only [sectionFor, markerOf, h1, h2, List.append_assoc]

theorem scanDocs_marker (extractPdf extractDocx : List Char → List Char)
    (listing : List DirEntry) (d : DirEntry) (hmem : d ∈ listing)
    (hext : (isPdfName d.filename || isDocxName d.filename) = true) :
    occursIn (markerOf d.filename) (scanDocs extractPdf extractDocx listing).2 := by
  induction listing with
  | nil => cases hmem
  | cons e rest ih =>
    rcases List.mem_cons.mp hmem with he | hr
    · subst he
      rcases Bool.or_eq_true_iff.mp hext with hpdf | hdocx
      · simp only [scanDocs, hpdf, if_true]
        exact occursIn_sectionFor d.filename (extractPdf d.content) _
      · by_cases hpdf : isPdfName d.filename = true
        · simp only [scanDocs, hpdf, if_true]
          exact occursIn_sectionFor d.filename (extractPdf d.content) _
        · simp only [scanDocs, hpdf, hdocx, if_true, if_false, Bool.false_eq_true]
          exact occursIn_sectionFor d.filename (extractDocx d.content) _
    · have hrest := ih hr
      by_cases hpdf : isPdfName e.filename = true
      · simp only [scanDocs, hpdf, if_true]
        exact occursIn_append_left _ hrest
      · by_cases hdocx : isDocxName e.filename = true
        · simp only [scanDocs, hpdf, hdocx, if_true, if_false, Bool.false_eq_true]
          exact occursIn_append_left _ hrest
        · simpa only [scanDocs, hpdf, hdocx, if_false, Bool.false_eq_true] using hrest

theorem scanDocs_documents (extractPdf extractDocx : List Char → List Char)
    (listing : List DirEntry) :
    (scanDocs extractPdf extractDocx listing).1
      = listing.filterMap (fun d =>
          if isPdfName d.filename then some (d.filename, extractPdf d.content)
          else if isDocxName d.filename then some (d.filename, extractDocx d.content)
          else none) := by
  induction listing with
  | nil => rfl
  | cons e rest ih =>
    by_cases hpdf : isPdfName e.filename = true
    · simp only [scanDocs, List.filterMap_cons, hpdf, if_true, ih]
    · by_cases hdocx : isDocxName e.filename = true
      · simp only [scanDocs, List.filterMap_cons, hpdf, hdocx, if_true, if_false,
          Bool.false_eq_true, ih]
      · simp only [scanDocs, List.filterMap_cons, hpdf, hdocx, if_false,
          Bool.false_eq_true, ih]

theorem scanDocs_all_skipped (extractPdf extractDocx : List Char → List Char)
    (listing : List DirEntry)
    (h : ∀ d ∈ listing, isPdfName d.filename = false ∧ isDocxName d.filename = false) :
    scanDocs extractPdf extractDocx listing = ([], []) := by
  induction listing with
  | nil => rfl
  | cons e rest ih =>
    have he := h e (List.mem_cons_self e rest)
    have hrest := ih (fun d hd => h d (List.mem_cons_of_mem e hd))
    simp only [scanDocs, he.1, he.2, if_false, Bool.false_eq_true, hrest]

/-! ### Claim theorems -/

/-- C5 counterexample: with the configured secret supplied as the token but
hub.mode not equal to "subscribe", the code returns Forbidden, not the
challenge — so a matching token alone does not make verification return
the challenge, contrary to the claim. -/
theorem webhook_verify_token_match_not_sufficient :
    whatsapp_webhook_verify "myrentalhost_verify_token" (some "unsubscribe")
      (some "myrentalhost_verify_token") (some "challenge-123")
      = .forbidden := rfl

/-- C5 (amended): webhook verification returns the challenge exactly when
hub.mode is "subscribe" and the supplied token equals the configured
secret; any other combination returns the forbidden result, and in
particular the challenge is never returned when the token differs from the
secret. -/
theorem webhook_verify_challenge_iff (verify_token : String)
    (mode token challenge : Option String) :
    (whatsapp_webhook_verify verify_token mode token challenge
        = .challengeEcho challenge
      ↔ (mode = some "subscribe" ∧ token = some verify_token))
    ∧ (token ≠ some verify_token →
        whatsapp_webhook_verify verify_token mode token challenge = .forbidden) := by
  unfold whatsapp_webhook_verify
  by_cases h1 : mode = some "subscribe" <;> by_cases h2 : token = some verify_token <;>
    simp [h1, h2]

/-- C5 witness: a mismatched token with the correct mode is rejected. -/
theorem webhook_verify_challenge_iff_w :
    whatsapp_webhook_verify "tok" (some "subscribe") (some "bad") (some "c")
      = .forbidden :=
  (webhook_verify_challenge_iff "tok" (some "subscribe") (some "bad") (some "c")).2
    (by decide)

/-- C7: reset_chat deletes the persisted history and leaves the link alone:
get_history afterwards returns the empty history and the same apartment id
(or null) that was linked before the reset. -/
theorem reset_clears_history_keeps_link (fs : FS) (guest_id : String) :
    get_history (reset_chat fs guest_id) guest_id
      = (guest_id, (load_guest_info fs guest_id).map (fun i => i.apartment_id), [])
    ∧ (reset_chat fs guest_id).links = fs.links := by
  refine ⟨?_, rfl⟩
  simp [get_history, reset_chat, get_chat_history, load_guest_info, updateFun]

/-- C8: an upload whose filename has a disallowed extension is rejected with
the 400 validation response and the file-system state is returned
unchanged; in particular an apartment directory that did not exist is
still absent after the call. -/
theorem upload_disallowed_extension_rejected (secure : List Char → List Char)
    (fs : FS) (apartment_id : String) (f : UploadedFile)
    (hname : f.filename ≠ []) (hext : allowed_file f.filename = false)
    (hdir : fs.apartmentDirs apartment_id = none) :
    upload_document secure fs apartment_id (some f) = (.disallowedType, fs)
    ∧ (upload_document secure fs apartment_id (some f)).2.apartmentDirs apartment_id
        = none := by
  have h1 : upload_document secure fs apartment_id (some f) = (.disallowedType, fs) := by
    unfold upload_document
    have hne : f.filename.isEmpty = false := by
      cases hfn : f.filename with
      | nil => exact absurd hfn hname
      | cons c cs => rfl
    simp [hne, hext]
  exact ⟨h1, by rw [h1]; exact hdir⟩

/-- C8 witness: uploading malware.exe to an apartment with no directory is
rejected and creates nothing. -/
theorem upload_disallowed_extension_rejected_w :
    upload_document (fun s => s) emptyFS "apt-1"
      (some ⟨"malware.exe".toList, []⟩) = (.disallowedType, emptyFS) :=
  (upload_disallowed_extension_rejected (fun s => s) emptyFS "apt-1"
    ⟨"malware.exe".toList, []⟩ (by decide) (by decide) rfl).1

/-- C10: every call to GuestPhoneRegistry.register_guest raises NameError,
because whatsapp_integration.py evaluates datetime.now() without ever
importing datetime (its module-level imports are requests, os and the
typing names only); the registry is never updated, so the claimed
register/lookup round trip cannot even start. -/
theorem register_guest_raises_name_error (registry : String → Option PhoneRecord)
    (phone_number apartment_id : String) (guest_name : Option String) (now : Nat) :
    register_guest registry phone_number apartment_id guest_name now
      = .error (.nameError "datetime") := rfl

theorem get_chat_history_save_guest_info (fs : FS) (g g2 a : String) (now : Nat) :
    get_chat_history (save_guest_info fs g2 a now) g = get_chat_history fs g := rfl

theorem chat_blank_apartment_none (extractPdf extractDocx : List Char → List Char)
    (respond : List Char → List (String × String) → Option String)
    (fs : FS) (now : Nat) (g m : String) (apartment_id : Option String)
    (hg : g ≠ "") (hm : m ≠ "") (hba : isBlank apartment_id = true)
    (hlink : load_guest_info fs g = none) :
    chat extractPdf extractDocx respond fs now (some g) apartment_id (some m)
      = (.missingApartment, fs) := by
  unfold chat
  rw [isBlank_some_false hg, isBlank_some_false hm, hba]
  simp only [Bool.or_self, Bool.false_eq_true, if_false, if_true, Option.getD_some]
  rw [hlink]

theorem chat_blank_apartment_some (extractPdf extractDocx : List Char → List Char)
    (respond : List Char → List (String × String) → Option String)
    (fs : FS) (now : Nat) (g m : String) (apartment_id : Option String)
    (info : GuestInfo)
    (hg : g ≠ "") (hm : m ≠ "") (hba : isBlank apartment_id = true)
    (hlink : load_guest_info fs g = some info) :
    chat extractPdf extractDocx respond fs now (some g) apartment_id (some m)
      = chatWithApartment extractPdf extractDocx respond fs now g info.apartment_id m := by
  unfold chat
  rw [isBlank_some_false hg, isBlank_some_false hm, hba]
  simp only [Bool.or_self, Bool.false_eq_true, if_false, if_true, Option.getD_some]
  rw [hlink]

theorem chat_supplied_apartment (extractPdf extractDocx : List Char → List Char)
    (respond : List Char → List (String × String) → Option String)
    (fs : FS) (now : Nat) (g a m : String)
    (hg : g ≠ "") (hm : m ≠ "") (ha : a ≠ "") :
    chat extractPdf extractDocx respond fs now (some g) (some a) (some m)
      = chatWithApartment extractPdf extractDocx respond
          (save_guest_info fs g a now) now g a m := by
  unfold chat
  rw [isBlank_some_false hg, isBlank_some_false hm, isBlank_some_false ha]
  simp only [Bool.or_self, Bool.false_eq_true, if_false, Option.getD_some]

theorem chatWithApartment_fail (extractPdf extractDocx : List Char → List Char)
    (respond : List Char → List (String × String) → Option String)
    (fs1 : FS) (now : Nat) (g a m : String) (listing : List DirEntry)
    (hdir : fs1.apartmentDirs a = some listing)
    (hfail : ∀ p msgs, respond p msgs = none) :
    chatWithApartment extractPdf extractDocx respond fs1 now g a m
      = (.processingError, fs1) := by
  unfold chatWithApartment load_apartment_info
  rw [hdir]
  exact chatRespond_fail respond fs1 now g a m _ hfail

/-- A concrete state used to exercise the responder-failure paths: one
apartment directory apt-1 (present, empty), no histories and no links. -/
def fs0 : FS :=
  { histories := fun _ => none
    links := fun _ => none
    apartmentDirs := fun a => if a = "apt-1" then some [] else none }

/-- C3: for a guest with no persisted link, chat without an apartment id
returns the missing-apartment 400 with the state untouched — for every
responder, so no responder call can be observed; and when an apartment id
is supplied, the resulting state carries it as the guest's link in every
outcome. -/
theorem chat_missing_apartment_and_link_persist
    (extractPdf extractDocx : List Char → List Char)
    (respond : List Char → List (String × String) → Option String)
    (fs : FS) (now : Nat) (g a m : String)
    (hg : g ≠ "") (hm : m ≠ "") (ha : a ≠ "") :
    (load_guest_info fs g = none →
      chat extractPdf extractDocx respond fs now (some g) none (some m)
        = (.missingApartment, fs))
    ∧ (chat extractPdf extractDocx respond fs now (some g) (some a) (some m)).2.links g
        = some ⟨g, a, now⟩ := by
  constructor
  · exact fun hlink =>
      chat_blank_apartment_none extractPdf extractDocx respond fs now g m none
        hg hm rfl hlink
  · rw [chat_supplied_apartment extractPdf extractDocx respond fs now g a m hg hm ha,
      chatWithApartment_links]
    simp [save_guest_info, updateFun]

/-- C3 witness: an unlinked guest chatting without an apartment id gets the
missing-apartment error and nothing changes. -/
theorem chat_missing_apartment_and_link_persist_w :
    chat (fun t => t) (fun t => t) (fun _ _ => none) emptyFS 0
      (some "g1") none (some "hola") = (.missingApartment, emptyFS) :=
  (chat_missing_apartment_and_link_persist (fun t => t) (fun t => t)
    (fun _ _ => none) emptyFS 0 "g1" "apt-1" "hola"
    (by decide) (by decide) (by decide)).1 rfl

/-- C9: when an apartment id is supplied and the responder then fails, the
guest-apartment link has already been overwritten with the supplied id and
stays so on the error path, while the persisted histories are unchanged. -/
theorem chat_failure_link_overwritten
    (extractPdf extractDocx : List Char → List Char)
    (respond : List Char → List (String × String) → Option String)
    (fs : FS) (now : Nat) (g a m : String) (listing : List DirEntry)
    (hg : g ≠ "") (hm : m ≠ "") (ha : a ≠ "")
    (hdir : fs.apartmentDirs a = some listing)
    (hfail : ∀ p msgs, respond p msgs = none) :
    (chat extractPdf extractDocx respond fs now (some g) (some a) (some m)).1
        = .processingError
    ∧ (chat extractPdf extractDocx respond fs now (some g) (some a) (some m)).2.links g
        = some ⟨g, a, now⟩
    ∧ (chat extractPdf extractDocx respond fs now (some g) (some a) (some m)).2.histories
        = fs.histories := by
  have hdir2 : (save_guest_info fs g a now).apartmentDirs a = some listing := hdir
  rw [chat_supplied_apartment extractPdf extractDocx respond fs now g a m hg hm ha,
    chatWithApartment_fail extractPdf extractDocx respond (save_guest_info fs g a now)
      now g a m listing hdir2 hfail]
  refine ⟨rfl, ?_, rfl⟩
  simp [save_guest_info, updateFun]

/-- C9 witness: with an empty apt-1 directory and a failing responder, the
error outcome still carries the freshly written link. -/
theorem chat_failure_link_overwritten_w :
    (chat (fun t => t) (fun t => t) (fun _ _ => none) fs0 0
      (some "g1") (some "apt-1") (some "hola")).2.links "g1"
      = some ⟨"g1", "apt-1", 0⟩ :=
  (chat_failure_link_overwritten (fun t => t) (fun t => t) (fun _ _ => none)
    fs0 0 "g1" "apt-1" "hola" [] (by decide) (by decide) (by decide) (by decide)
    (fun p msgs => rfl)).2.1

/-- C1 counterexample: with an empty prior history, a present apartment
directory and a failing responder, chat returns the generic processing
error but the persisted history afterwards is empty: it does not contain
the guest's message "hola", contrary to the claim that the guest's message
survives a responder failure in the persisted history. -/
theorem chat_failure_guest_message_lost :
    (chat (fun t => t) (fun t => t) (fun _ _ => none) fs0 0
        (some "g1") (some "apt-1") (some "hola")).1 = .processingError
    ∧ ((get_chat_history (chat (fun t => t) (fun t => t) (fun _ _ => none) fs0 0
        (some "g1") (some "apt-1") (some "hola")).2 "g1").any
        (fun msg => msg.content == "hola")) = false := by
  exact ⟨rfl, rfl⟩

/-- C1 (amended): on responder failure chat persists nothing at all — the
histories on disk are exactly those from before the call (so the guest's
new message is not persisted and no assistant entry is recorded) and the
endpoint returns the generic processing-error result instead of crashing. -/
theorem chat_responder_failure_persists_nothing
    (extractPdf extractDocx : List Char → List Char)
    (respond : List Char → List (String × String) → Option String)
    (fs : FS) (now : Nat) (g a m : String) (listing : List DirEntry)
    (hg : g ≠ "") (hm : m ≠ "") (ha : a ≠ "")
    (hdir : fs.apartmentDirs a = some listing)
    (hfail : ∀ p msgs, respond p msgs = none) :
    (chat extractPdf extractDocx respond fs now (some g) (some a) (some m)).1
        = .processingError
    ∧ (chat extractPdf extractDocx respond fs now (some g) (some a) (some m)).2.histories
        = fs.histories := by
  have hdir2 : (save_guest_info fs g a now).apartmentDirs a = some listing := hdir
  rw [chat_supplied_apartment extractPdf extractDocx respond fs now g a m hg hm ha,
    chatWithApartment_fail extractPdf extractDocx respond (save_guest_info fs g a now)
      now g a m listing hdir2 hfail]
  exact ⟨rfl, rfl⟩

/-- C1 witness: after the failing call the guest's history file still does
not exist. -/
theorem chat_responder_failure_persists_nothing_w :
    (chat (fun t => t) (fun t => t) (fun _ _ => none) fs0 0
      (some "g1") (some "apt-1") (some "hola")).2.histories "g1" = none := by
  have h := chat_responder_failure_persists_nothing (fun t => t) (fun t => t)
    (fun _ _ => none) fs0 0 "g1" "apt-1" "hola" []
    (by decide) (by decide) (by decide) (by decide) (fun p msgs => rfl)
  rw [h.2]
  rfl

/-- C2: whenever chat returns the success outcome, the persisted history of
the guest equals the prior history followed by exactly one guest-role
entry carrying the sent message and then exactly one assistant entry
carrying the reply, in that order; the prior entries are untouched. (The
code spells the guest role "user".) -/
theorem chat_success_appends_exactly
    (extractPdf extractDocx : List Char → List Char)
    (respond : List Char → List (String × String) → Option String)
    (fs : FS) (now : Nat) (g m reply a2 g2 : String) (apartment_id : Option String)
    (h : (chat extractPdf extractDocx respond fs now (some g) apartment_id (some m)).1
        = .success reply a2 g2) :
    get_chat_history
        (chat extractPdf extractDocx respond fs now (some g) apartment_id (some m)).2 g
      = get_chat_history fs g
          ++ [⟨"user", m, now⟩, ⟨"assistant", reply, now⟩] := by
  by_cases hg : g = ""
  · subst hg
    unfold chat at h
    simp [isBlank] at h
  by_cases hm : m = ""
  · subst hm
    unfold chat at h
    simp [isBlank] at h
  by_cases hba : isBlank apartment_id = true
  · cases hlink : load_guest_info fs g with
    | none =>
      rw [chat_blank_apartment_none extractPdf extractDocx respond fs now g m
        apartment_id hg hm hba hlink] at h
      simp at h
    | some info =>
      rw [chat_blank_apartment_some extractPdf extractDocx respond fs now g m
        apartment_id info hg hm hba hlink] at h ⊢
      exact chatWithApartment_success extractPdf extractDocx respond fs now g
        info.apartment_id m reply a2 g2 h
  · cases apartment_id with
    | none => exact absurd rfl hba
    | some a =>
      have ha : a ≠ "" := by
        intro hae
        subst hae
        exact hba rfl
      rw [chat_supplied_apartment extractPdf extractDocx respond fs now g a m
        hg hm ha] at h ⊢
      exact chatWithApartment_success extractPdf extractDocx respond _ now g a m
        reply a2 g2 h

/-- C2 witness: a successful chat against an empty history leaves exactly
the guest turn followed by the assistant turn. -/
theorem chat_success_appends_exactly_w :
    get_chat_history (chat (fun t => t) (fun t => t) (fun _ _ => some "ok") fs0 0
        (some "g1") (some "apt-1") (some "hola")).2 "g1"
      = [⟨"user", "hola", 0⟩, ⟨"assistant", "ok", 0⟩] := by
  have h := chat_success_appends_exactly (fun t => t) (fun t => t)
    (fun _ _ => some "ok") fs0 0 "g1" "hola" "ok" "apt-1" "g1" (some "apt-1")
    (by decide)
  simpa [get_chat_history, fs0] using h

/-- C4: the knowledge loader returns none exactly when the apartment
directory does not exist; an existing directory with no extractable
documents still yields a found (but empty) knowledge value; and chat with
a supplied apartment id returns the unknown-apartment 404 exactly when the
directory is absent. -/
theorem apartment_absent_iff (extractPdf extractDocx : List Char → List Char)
    (respond : List Char → List (String × String) → Option String)
    (fs : FS) (now : Nat) (g a m : String) (listing : List DirEntry)
    (hg : g ≠ "") (hm : m ≠ "") (ha : a ≠ "") :
    (load_apartment_info extractPdf extractDocx fs a = none
      ↔ fs.apartmentDirs a = none)
    ∧ (fs.apartmentDirs a = some listing →
        (∀ d ∈ listing, isPdfName d.filename = false ∧ isDocxName d.filename = false) →
        load_apartment_info extractPdf extractDocx fs a = some ⟨a, [], []⟩)
    ∧ ((chat extractPdf extractDocx respond fs now (some g) (some a) (some m)).1
          = .unknownApartment a
        ↔ fs.apartmentDirs a = none) := by
  refine ⟨?_, ?_, ?_⟩
  · unfold load_apartment_info
    cases fs.apartmentDirs a with
    | none => simp
    | some listing2 => simp
  · intro hdir hskip
    unfold load_apartment_info
    rw [hdir]
    dsimp only
    rw [scanDocs_all_skipped extractPdf extractDocx listing hskip]
  · rw [chat_supplied_apartment extractPdf extractDocx respond fs now g a m hg hm ha]
    unfold chatWithApartment load_apartment_info
    rw [save_guest_info_dirs]
    cases hd : fs.apartmentDirs a with
    | none => simp
    | some listing2 =>
      simp only [Option.some.injEq]
      constructor
      · intro hcontra
        exact absurd hcontra
          (chatRespond_not_unknown respond (save_guest_info fs g a now) now g a m a _)
      · intro hfalse
        cases hfalse

/-- C4 witness: an apartment directory holding only notes.txt (an
unextractable file) is found but yields empty knowledge. -/
def fs4 : FS :=
  { histories := fun _ => none
    links := fun _ => none
    apartmentDirs := fun a =>
      if a = "apt-2" then some [⟨"notes.txt".toList, []⟩] else none }

/-- C4 witness theorem: the loader finds apt-2 and returns the empty
knowledge value. -/
theorem apartment_absent_iff_w :
    load_apartment_info (fun t => t) (fun t => t) fs4 "apt-2"
      = some ⟨"apt-2", [], []⟩ :=
  (apartment_absent_iff (fun t => t) (fun t => t) (fun _ _ => none) fs4 0
    "g1" "apt-2" "hola" [⟨"notes.txt".toList, []⟩]
    (by decide) (by decide) (by decide)).2.1 (by decide) (by decide)

/-- C6: for an existing apartment directory the loader extracts exactly the
files ending in .pdf (PDF extractor) or .docx/.doc (Word extractor),
skipping every other file, and each processed document contributes a
"=== filename ===" marker to the concatenated full text — for every
listing order, so both markers of two processed documents appear
regardless of directory-listing order. -/
theorem loader_dispatch_and_markers (extractPdf extractDocx : List Char → List Char)
    (fs : FS) (a : String) (listing : List DirEntry)
    (hdir : fs.apartmentDirs a = some listing) :
    ∃ info, load_apartment_info extractPdf extractDocx fs a = some info
      ∧ info.documents = listing.filterMap (fun d =>
          if isPdfName d.filename then some (d.filename, extractPdf d.content)
          else if isDocxName d.filename then some (d.filename, extractDocx d.content)
          else none)
      ∧ ∀ d ∈ listing, (isPdfName d.filename || isDocxName d.filename) = true →
          occursIn (markerOf d.filename) info.full_text := by
  refine ⟨⟨a, (scanDocs extractPdf extractDocx listing).1,
    (scanDocs extractPdf extractDocx listing).2⟩, ?_, ?_, ?_⟩
  · unfold load_apartment_info
    rw [hdir]
  · exact scanDocs_documents extractPdf extractDocx listing
  · exact fun d hmem hext => scanDocs_marker extractPdf extractDocx listing d hmem hext

/-- C6 witness state: apt-3 holds a pdf, a docx and an unsupported file. -/
def listing6 : List DirEntry :=
  [⟨"a.pdf".toList, "texto a".toList⟩,
   ⟨"b.docx".toList, "texto b".toList⟩,
   ⟨"c.txt".toList, "texto c".toList⟩]

/-- C6 witness state: the file system carrying listing6 under apt-3. -/
def fs6 : FS :=
  { histories := fun _ => none
    links := fun _ => none
    apartmentDirs := fun a => if a = "apt-3" then some listing6 else none }

/-- C6 witness theorem: both document markers occur in apt-3's full text. -/
theorem loader_dispatch_and_markers_w :
    ∃ info, load_apartment_info (fun t => t) (fun t => t) fs6 "apt-3" = some info
      ∧ occursIn (markerOf "a.pdf".toList) info.full_text
      ∧ occursIn (markerOf "b.docx".toList) info.full_text := by
  obtain ⟨info, h1, h2, h3⟩ := loader_dispatch_and_markers (fun t => t) (fun t => t)
    fs6 "apt-3" listing6 (by decide)
  exact ⟨info, h1,
    h3 ⟨"a.pdf".toList, "texto a".toList⟩ (by decide) (by decide),
    h3 ⟨"b.docx".toList, "texto b".toList⟩ (by decide) (by decide)⟩
